import Mathlib

/-!
Verification development for the CafeScraper Python actor demo.

The repository is a thin RPC-client scaffold: `sdk.py` wraps three remote
services (Parameter, Result, Log) and `main.py` is a task driver `run` that
fetches an input-JSON string, builds a proxy URL from the `PROXY_AUTH`
environment variable, pushes a result payload and a table-header spec, and
has a single top-level exception handler.

Shallow embedding used here:
  * JSON values are the inductive `Json`; the standard-library calls
    `json.dumps(obj, ensure_ascii=False)` and `json.loads(s)` are modelled
    by the executable functions `dumps` and `loads` (numbers are modelled
    as integers only; JSON fraction/exponent syntax is not modelled, and no
    claim exercises it).
  * A Python exception is a `PyErr` (class name and message, where the
    message models `str(e)`).
  * The driver `run` is a pure function from its two external inputs (the
    result of `os.environ.get("PROXY_AUTH")` and the result of the
    `GetInputJSONString` RPC, both of which may fail) to the ordered trace
    of observable RPC effects (`Event`s: log lines, `PushData` calls,
    `SetTableHeader` calls) together with an outcome: `Except.ok ()` for a
    normal return, `Except.error e` when the exception `e` propagates out.
-/

/-- A Python exception, reduced to its class name and its `str(e)` message. -/
structure PyErr where
  name : String
  msg : String
deriving DecidableEq

/-- JSON values as decoded by Python: `None`, `bool`, `int`, `str`, `list`,
`dict` (a `dict` is an ordered association list with unique keys, as
produced by `json.loads`). Numbers are modelled as integers. -/
inductive Json where
  | null : Json
  | bool (b : Bool) : Json
  | num (n : Int) : Json
  | str (s : String) : Json
  | arr (xs : List Json) : Json
  | obj (kvs : List (String × Json)) : Json

/-- The character U+007B, kept out of string literals. -/
def lbrace : Char := Char.ofNat 123

/-- The character U+007D, kept out of string literals. -/
def rbrace : Char := Char.ofNat 125

/-- The one-character string holding U+007B. -/
def lbraceS : String := String.singleton lbrace

/-- The one-character string holding U+007D. -/
def rbraceS : String := String.singleton rbrace

/-- The one-character string holding U+0027. -/
def squote : String := String.singleton (Char.ofNat 39)

/-- One hexadecimal digit, lowercase, as emitted by Python. -/
def hexDigit (n : Nat) : Char :=
  if n < 10 then Char.ofNat (48 + n) else Char.ofNat (87 + n)

/-- How `json.dumps(..., ensure_ascii=False)` renders one character inside a
JSON string: `"` and backslash are escaped, the control characters below
U+0020 use the short escapes or a 4-hex-digit escape, and every other
character (non-ASCII included) passes through verbatim. -/
def escapeChar (c : Char) : String :=
  if c = '"' then "\\\""
  else if c = '\\' then "\\\\"
  else if c = '\n' then "\\n"
  else if c = '\r' then "\\r"
  else if c = '\t' then "\\t"
  else if c.toNat = 8 then "\\b"
  else if c.toNat = 12 then "\\f"
  else if c.toNat < 32 then
    "\\u00" ++ String.mk [hexDigit (c.toNat / 16), hexDigit (c.toNat % 16)]
  else String.singleton c

/-- Escape a list of characters with `escapeChar` and concatenate. -/
def escapeChars : List Char → String
  | [] => ""
  | c :: cs => escapeChar c ++ escapeChars cs

/-- Render a JSON string literal the way `json.dumps(..., ensure_ascii=False)`
does: double quotes around the escaped characters. -/
def dumpStr (s : String) : String :=
  "\"" ++ escapeChars s.toList ++ "\""

mutual

/-- Model of `json.dumps(obj, ensure_ascii=False)` with Python's default
separators (elements joined by a comma and a space, keys and values joined
by a colon and a space). -/
def dumps : Json → String
  | .null => "null"
  | .bool b => if b then "true" else "false"
  | .num n => toString n
  | .str s => dumpStr s
  | .arr xs => "[" ++ dumpsArr xs ++ "]"
  | .obj kvs => lbraceS ++ dumpsObj kvs ++ rbraceS

/-- Serialize the elements of a JSON array, comma-and-space separated. -/
def dumpsArr : List Json → String
  | [] => ""
  | [x] => dumps x
  | x :: y :: xs => dumps x ++ ", " ++ dumpsArr (y :: xs)

/-- Serialize the members of a JSON object, comma-and-space separated. -/
def dumpsObj : List (String × Json) → String
  | [] => ""
  | [(k, v)] => dumpStr k ++ ": " ++ dumps v
  | (k, v) :: kv :: xs => dumpStr k ++ ": " ++ dumps v ++ ", " ++ dumpsObj (kv :: xs)

end

/-- The decode error raised by Python's `json` module, with the position
information of the real message omitted. -/
def decodeErr (msg : String) : PyErr :=
  { name := "json.decoder.JSONDecodeError", msg := msg }

/-- JSON whitespace as accepted by Python's `json.loads`. -/
def isWs (c : Char) : Bool :=
  c = ' ' || c = '\t' || c = '\n' || c = '\r'

/-- Drop leading JSON whitespace. -/
def skipWs : List Char → List Char
  | [] => []
  | c :: cs => if isWs c then skipWs cs else c :: cs

/-- Value of one hexadecimal digit character, if any. -/
def hexVal (c : Char) : Option Nat :=
  if 48 ≤ c.toNat && c.toNat ≤ 57 then some (c.toNat - 48)
  else if 97 ≤ c.toNat && c.toNat ≤ 102 then some (c.toNat - 87)
  else if 65 ≤ c.toNat && c.toNat ≤ 70 then some (c.toNat - 55)
  else none

/-- Prepend a decoded character to the pending string-parse result. -/
def consStr (ch : Char) :
    Except PyErr (List Char × List Char) → Except PyErr (List Char × List Char)
  | .error e => .error e
  | .ok (acc, r) => .ok (ch :: acc, r)

/-- Parse the body of a JSON string (the opening quote already consumed)
up to and including the closing quote, decoding the JSON escapes accepted
by Python. The fuel argument exceeds the remaining input length. -/
def parseStrChars : Nat → List Char → Except PyErr (List Char × List Char)
  | 0, _ => .error (decodeErr "Unterminated string")
  | _ + 1, [] => .error (decodeErr "Unterminated string")
  | n + 1, c :: cs =>
    if c = '"' then .ok ([], cs)
    else if c = '\\' then
      match cs with
      | [] => .error (decodeErr "Unterminated string")
      | e :: cs2 =>
        if e = '"' then consStr '"' (parseStrChars n cs2)
        else if e = '\\' then consStr '\\' (parseStrChars n cs2)
        else if e = '/' then consStr '/' (parseStrChars n cs2)
        else if e = 'b' then consStr (Char.ofNat 8) (parseStrChars n cs2)
        else if e = 'f' then consStr (Char.ofNat 12) (parseStrChars n cs2)
        else if e = 'n' then consStr '\n' (parseStrChars n cs2)
        else if e = 'r' then consStr '\r' (parseStrChars n cs2)
        else if e = 't' then consStr '\t' (parseStrChars n cs2)
        else if e = 'u' then
          match cs2 with
          | a :: b :: c2 :: d :: cs3 =>
            match hexVal a, hexVal b, hexVal c2, hexVal d with
            | some x, some y, some z, some w =>
              consStr (Char.ofNat (((x * 16 + y) * 16 + z) * 16 + w)) (parseStrChars n cs3)
            | _, _, _, _ => .error (decodeErr "Invalid \\uXXXX escape")
          | _ => .error (decodeErr "Invalid \\uXXXX escape")
        else .error (decodeErr "Invalid \\escape")
    else consStr c (parseStrChars n cs)

/-- Split off a maximal run of decimal digits. -/
def takeDigits : List Char → List Char × List Char
  | [] => ([], [])
  | c :: cs =>
    if c.isDigit then
      let p := takeDigits cs
      (c :: p.1, p.2)
    else ([], c :: cs)

/-- Decimal value of a digit run. -/
def digitsToNat (ds : List Char) : Nat :=
  ds.foldl (fun a c => a * 10 + (c.toNat - 48)) 0

/-- Parse a JSON number. Numbers are modelled as integers: an optional minus
sign followed by digits (fraction and exponent parts are not modelled). -/
def parseNum : List Char → Except PyErr (Json × List Char)
  | [] => .error (decodeErr "Expecting value")
  | c :: cs =>
    if c = '-' then
      match takeDigits cs with
      | ([], _) => .error (decodeErr "Expecting value")
      | (ds, r) => .ok (.num (-(Int.ofNat (digitsToNat ds))), r)
    else
      match takeDigits (c :: cs) with
      | ([], _) => .error (decodeErr "Expecting value")
      | (ds, r) => .ok (.num (Int.ofNat (digitsToNat ds)), r)

/-- Insert a key into an association list with Python-dict semantics: an
existing key keeps its position and gets the new value, a new key is
appended. -/
def insertKey (kvs : List (String × Json)) (k : String) (v : Json) :
    List (String × Json) :=
  match kvs with
  | [] => [(k, v)]
  | (k2, v2) :: rest =>
    if k2 = k then (k2, v) :: rest else (k2, v2) :: insertKey rest k v

/-- Python-dict lookup in an association list (`d.get(k)`): the value of the
first matching key, else `None`. -/
def dictLookup (kvs : List (String × Json)) (k : String) : Option Json :=
  match kvs with
  | [] => none
  | (k2, v2) :: rest => if k2 = k then some v2 else dictLookup rest k

/-- Build a Python dict from parsed members in order: later duplicate keys
overwrite earlier ones in place, as `json.loads` does. -/
def pyDictOfPairs (raw : List (String × Json)) : List (String × Json) :=
  raw.foldl (fun acc kv => insertKey acc kv.1 kv.2) []

mutual

/-- Recursive-descent model of Python's JSON value parser. The fuel
argument bounds nesting and repetition; `loads` supplies enough for any
input. Returns the value and the unconsumed input. -/
def parseValue : Nat → List Char → Except PyErr (Json × List Char)
  | 0, _ => .error (decodeErr "Expecting value")
  | n + 1, cs =>
    match cs with
    | [] => .error (decodeErr "Expecting value")
    | 'n' :: 'u' :: 'l' :: 'l' :: rest => .ok (.null, rest)
    | 't' :: 'r' :: 'u' :: 'e' :: rest => .ok (.bool true, rest)
    | 'f' :: 'a' :: 'l' :: 's' :: 'e' :: rest => .ok (.bool false, rest)
    | '"' :: rest =>
      match parseStrChars (rest.length + 1) rest with
      | .error e => .error e
      | .ok (acc, r) => .ok (.str (String.mk acc), r)
    | '[' :: rest =>
      (match skipWs rest with
       | ']' :: r2 => .ok (.arr [], r2)
       | r2 =>
         match parseArrayItems n r2 with
         | .error e => .error e
         | .ok (vs, r3) => .ok (.arr vs, r3))
    | c :: rest =>
      if c = lbrace then
        match skipWs rest with
        | [] => .error (decodeErr "Expecting property name enclosed in double quotes")
        | c2 :: r2 =>
          if c2 = rbrace then .ok (.obj [], r2)
          else
            match parseObjItems n (c2 :: r2) with
            | .error e => .error e
            | .ok (raw, r3) => .ok (.obj (pyDictOfPairs raw), r3)
      else if c = '-' || c.isDigit then parseNum (c :: rest)
      else .error (decodeErr "Expecting value")

/-- Parse the comma-separated items of a non-empty JSON array, up to and
including the closing bracket. -/
def parseArrayItems : Nat → List Char → Except PyErr (List Json × List Char)
  | 0, _ => .error (decodeErr "Expecting value")
  | n + 1, cs =>
    match parseValue n (skipWs cs) with
    | .error e => .error e
    | .ok (v, r) =>
      match skipWs r with
      | ',' :: r2 =>
        (match parseArrayItems n r2 with
         | .error e => .error e
         | .ok (vs, r3) => .ok (v :: vs, r3))
      | ']' :: r2 => .ok ([v], r2)
      | _ => .error (decodeErr "Expecting , delimiter")

/-- Parse the comma-separated members of a non-empty JSON object, up to and
including the closing brace, returning the raw pairs in source order. -/
def parseObjItems : Nat → List Char →
    Except PyErr (List (String × Json) × List Char)
  | 0, _ => .error (decodeErr "Expecting value")
  | n + 1, cs =>
    match skipWs cs with
    | '"' :: rest =>
      (match parseStrChars (rest.length + 1) rest with
       | .error e => .error e
       | .ok (kcs, r) =>
         match skipWs r with
         | ':' :: r2 =>
           (match parseValue n (skipWs r2) with
            | .error e => .error e
            | .ok (v, r3) =>
              match skipWs r3 with
              | ',' :: r4 =>
                (match parseObjItems n r4 with
                 | .error e => .error e
                 | .ok (kvs, r5) => .ok ((String.mk kcs, v) :: kvs, r5))
              | c2 :: r4 =>
                if c2 = rbrace then .ok ([(String.mk kcs, v)], r4)
                else .error (decodeErr "Expecting , delimiter")
              | [] => .error (decodeErr "Expecting , delimiter"))
         | _ => .error (decodeErr "Expecting : delimiter"))
    | _ => .error (decodeErr "Expecting property name enclosed in double quotes")

end

/-- Model of Python's `json.loads`: parse one JSON value surrounded by
optional whitespace; anything left over is an error, and so is an empty or
non-JSON input. -/
def loads (s : String) : Except PyErr Json :=
  match parseValue (s.length + 1) (skipWs s.toList) with
  | .error e => .error e
  | .ok (v, r) =>
    match skipWs r with
    | [] => .ok v
    | _ => .error (decodeErr "Extra data")

/-- Embedding of `_ParameterService.get_input_json_dict` applied to the
string the host returned (src/sdk.py lines 21-23):
`json.loads(json_str) if json_str else dict()` — an empty string yields an
empty dict, anything else is parsed as JSON and parse errors propagate. -/
def get_input_json_dict (json_str : String) : Except PyErr Json :=
  if json_str = "" then .ok (.obj []) else loads json_str

/-- Python's name for the runtime type of a decoded JSON value. -/
def pyTypeName : Json → String
  | .null => "NoneType"
  | .bool _ => "bool"
  | .num _ => "int"
  | .str _ => "str"
  | .arr _ => "list"
  | .obj _ => "dict"

/-- How Python's `repr` renders one character inside a single-quoted string
literal (simplified: backslash, the quote itself and the common control
characters are escaped; everything else passes through). -/
def pyReprChar (c : Char) : String :=
  if c = '\\' then "\\\\"
  else if c.toNat = 39 then "\\" ++ squote
  else if c = '\n' then "\\n"
  else if c = '\r' then "\\r"
  else if c = '\t' then "\\t"
  else String.singleton c

/-- Escape a list of characters with `pyReprChar` and concatenate. -/
def pyReprChars : List Char → String
  | [] => ""
  | c :: cs => pyReprChar c ++ pyReprChars cs

mutual

/-- Model of Python's `repr` on decoded JSON values, as used when a dict or
list is interpolated into an f-string. -/
def pyRepr : Json → String
  | .null => "None"
  | .bool b => if b then "True" else "False"
  | .num n => toString n
  | .str s => squote ++ pyReprChars s.toList ++ squote
  | .arr xs => "[" ++ pyReprArr xs ++ "]"
  | .obj kvs => lbraceS ++ pyReprObj kvs ++ rbraceS

/-- `repr` of the elements of a list, comma-and-space separated. -/
def pyReprArr : List Json → String
  | [] => ""
  | [x] => pyRepr x
  | x :: y :: xs => pyRepr x ++ ", " ++ pyReprArr (y :: xs)

/-- `repr` of the members of a dict, comma-and-space separated. -/
def pyReprObj : List (String × Json) → String
  | [] => ""
  | [(k, v)] => squote ++ pyReprChars k.toList ++ squote ++ ": " ++ pyRepr v
  | (k, v) :: kv :: xs =>
    squote ++ pyReprChars k.toList ++ squote ++ ": " ++ pyRepr v ++ ", " ++
      pyReprObj (kv :: xs)

end

/-- Model of Python's `str` on decoded JSON values, as used when such a
value is interpolated into an f-string: a string renders bare, everything
else as its `repr`. -/
def pyStr : Json → String
  | .str s => s
  | j => pyRepr j

/-- F-string rendering of an optional decoded value: `None` for absent. -/
def pyStrOpt : Option Json → String
  | none => "None"
  | some j => pyStr j

/-- F-string rendering of an `Optional[str]`: the bare string, or `None`. -/
def optStr : Option String → String
  | none => "None"
  | some s => s

/-- Model of `d.get(key)` on the object `json.loads` returned (src/main.py
line 30): a dict answers with the value or `None`; any other decoded value
has no `get` attribute and raises `AttributeError`. -/
def pyDictGet (j : Json) (k : String) : Except PyErr (Option Json) :=
  match j with
  | .obj kvs => .ok (dictLookup kvs k)
  | _ =>
    .error { name := "AttributeError",
             msg := squote ++ pyTypeName j ++ squote ++
               " object has no attribute " ++ squote ++ "get" ++ squote }

/-- One table-header record (`_ResultService.TableHeader`). -/
structure TableHeader where
  label : String
  key : String
  format : String
deriving DecidableEq

/-- The message `set_table_header` sends in its single remote call
(`sdk_pb2.TableHeader(headers=headers)`, src/sdk.py line 35). -/
structure TableHeaderMsg where
  headers : List TableHeader
deriving DecidableEq

/-- Embedding of `_ResultService.set_table_header` (src/sdk.py lines 34-36):
wrap the given header list, unchanged and in order, into the one message of
the single `SetTableHeader` remote call. -/
def set_table_header (headers : List TableHeader) : TableHeaderMsg :=
  { headers := headers }

/-- The remote calls one invocation of `set_table_header` performs: exactly
one, carrying the full list. -/
def set_table_header_calls (headers : List TableHeader) : List TableHeaderMsg :=
  [set_table_header headers]

/-- Modelled from the spec: the host side of `SetTableHeader` is not part of
this repository; per the spec each call replaces, not appends to, the header
set as understood by the host, so the host's new header state is exactly the
transmitted list. -/
def host_apply_table_header (prev : List TableHeader) (msg : TableHeaderMsg) :
    List TableHeader :=
  msg.headers

/-- Log severity levels of the Log facade. -/
inductive Level where
  | debug : Level
  | info : Level
  | warn : Level
  | error : Level
deriving DecidableEq

/-- One observable RPC effect of the driver: a log line, a `PushData` call
carrying its serialized JSON string, or a `SetTableHeader` call carrying the
header list. -/
inductive Event where
  | log (lvl : Level) (msg : String) : Event
  | pushData (jsonString : String) : Event
  | setTableHeader (headers : List TableHeader) : Event

/-- Embedding of `_ResultService.push_data` (src/sdk.py lines 38-41): one
`PushData` remote call carrying `json.dumps(dict_obj, ensure_ascii=False)`. -/
def push_data (dict_obj : Json) : Event :=
  .pushData (dumps dict_obj)

/-- The event is a `PushData` remote call. -/
def isPush : Event → Bool
  | .pushData _ => true
  | _ => false

/-- The event is a `SetTableHeader` remote call. -/
def isSetHeader : Event → Bool
  | .setTableHeader _ => true
  | _ => false

/-- The event is an error-severity log line. -/
def isErrorLog : Event → Bool
  | .log .error _ => true
  | _ => false

/-- The fixed proxy endpoint of src/main.py line 16. -/
def proxyDomain : String := "proxy-inner.cafescraper.com:6000"

/-- Embedding of the proxy-URL construction of src/main.py line 26:
`f"socks5://‹proxyAuth›@‹proxyDomain›" if proxyAuth else None`. Python
truthiness makes both an absent and an empty credential yield `None`. -/
def build_proxy_url : Option String → Option String
  | none => none
  | some s => if s = "" then none else some ("socks5://" ++ s ++ "@" ++ proxyDomain)

/-- Step 2 of the driver (src/main.py lines 18-23): the guarded environment
lookup. A successful `os.environ.get("PROXY_AUTH")` is logged at info level;
a lookup failure is caught locally, logged at error level, and leaves the
credential `None`. Returns the credential and the log events. -/
def envEvents : Except PyErr (Option String) → Option String × List Event
  | .ok a => (a, [.log .info ("Proxy authentication information: " ++ optStr a)])
  | .error e =>
    (none, [.log .error ("Failed to retrieve proxy authentication information: " ++ e.msg)])

/-- The simulated business-processing `data` field of src/main.py lines 37-41. -/
def sampleData : Json :=
  .obj [("title", .str "Sample title"), ("content", .str "Sample content")]

/-- The result dict of src/main.py lines 34-42: the extracted `url` value
(`None` when absent), `status: success`, and the sample data. -/
def successResult (url : Option Json) : Json :=
  .obj [("url", url.getD .null), ("status", .str "success"), ("data", sampleData)]

/-- The header-list literal of src/main.py lines 49-56. -/
def headersLit : List TableHeader :=
  [{ label := "URL", key := "url", format := "text" }]

/-- The failure payload of src/main.py lines 63-67:
`error = str(e)`, `error_code = "500"`, `status = "failed"`. -/
def failurePayload (e : PyErr) : Json :=
  .obj [("error", .str e.msg), ("error_code", .str "500"), ("status", .str "failed")]

/-- The events of the top-level `except` handler of src/main.py lines 61-69:
one error log and one `push_data` of the failure payload (after which the
exception is re-raised). -/
def handlerEvents (e : PyErr) : List Event :=
  [.log .error ("Script execution error: " ++ e.msg),
   push_data (failurePayload e)]

/-- Embedding of the driver `run` of src/main.py lines 9-69, as a function
of its two external inputs: `envRes` is what `os.environ.get("PROXY_AUTH")`
does (always `ok` in CPython; the source guards it with a local
try/except), and `inputRes` is what the `GetInputJSONString` remote call
does. Returns the ordered trace of observable RPC events and the outcome:
`ok ()` on a normal return, `error e` when the exception `e` escapes (after
the top-level handler logged it, pushed the failure payload and re-raised). -/
def run (envRes : Except PyErr (Option String)) (inputRes : Except PyErr String) :
    List Event × Except PyErr Unit :=
  match inputRes with
  | .error e => (handlerEvents e, .error e)
  | .ok json_str =>
    match get_input_json_dict json_str with
    | .error e => (handlerEvents e, .error e)
    | .ok input_json_dict =>
      let ev1 := [Event.log .debug ("params: " ++ pyRepr input_json_dict)]
      let pa := envEvents envRes
      let proxy_url := build_proxy_url pa.1
      let ev3 := [Event.log .info ("Proxy address: " ++ optStr proxy_url)]
      match pyDictGet input_json_dict "url" with
      | .error e => (ev1 ++ pa.2 ++ ev3 ++ handlerEvents e, .error e)
      | .ok url =>
        let ev4 := [Event.log .info ("start deal URL: " ++ pyStrOpt url)]
        let result := successResult url
        let ev5 := [Event.log .info ("Processing result: " ++ pyRepr result),
                    push_data result]
        let ev6 := [Event.setTableHeader (set_table_header headersLit).headers]
        let ev7 := [Event.log .info "Script execution completed"]
        (ev1 ++ pa.2 ++ ev3 ++ ev4 ++ ev5 ++ ev6 ++ ev7, .ok ())

/-- C1 counterexample: the claim quantifies over every credential string
obtained from the environment, but for the empty credential the source's
truthiness test (`if proxyAuth`) yields no URL rather than
`socks5://@proxy-inner.cafescraper.com:6000`. -/
theorem proxy_url_empty_cred_counterexample :
    ¬ build_proxy_url (some "") = some ("socks5://" ++ "" ++ "@" ++ proxyDomain) := by
  decide

/-- C1 (amended): for every non-empty credential string `c` the proxy-URL
construction yields `socks5://‹c›@proxy-inner.cafescraper.com:6000`, and an
absent credential yields no URL; an empty credential also yields no URL. -/
theorem build_proxy_url_nonempty_spec (c : String) (h : c ≠ "") :
    build_proxy_url (some c) = some ("socks5://" ++ c ++ "@" ++ proxyDomain)
    ∧ build_proxy_url none = none
    ∧ build_proxy_url (some "") = none :=
  ⟨by simp [build_proxy_url, h], rfl, rfl⟩

/-- Witness for the amended C1 at the concrete credential `user:pass`. -/
theorem build_proxy_url_nonempty_spec_witness :
    build_proxy_url (some "user:pass")
      = some ("socks5://" ++ "user:pass" ++ "@" ++ proxyDomain)
    ∧ build_proxy_url none = none
    ∧ build_proxy_url (some "") = none :=
  build_proxy_url_nonempty_spec "user:pass" (by decide)

/-- C9: a present-but-empty `PROXY_AUTH` credential yields no proxy URL,
exactly like an absent one, because the source tests the credential for
truthiness rather than for being `None`. -/
theorem empty_proxy_auth_yields_none :
    build_proxy_url (some "") = none ∧ build_proxy_url none = none :=
  ⟨rfl, rfl⟩

/-- C2: `get_input_json_dict` yields the empty mapping on the empty string
and on the two-character object string; on `not json` it fails with a JSON
decode error; and for every non-empty string on which `json.loads` fails,
the decode error propagates to the caller unmodified. -/
theorem get_input_json_dict_spec (s : String) (e : PyErr) (h1 : s ≠ "")
    (h2 : loads s = Except.error e) :
    get_input_json_dict "" = Except.ok (Json.obj [])
    ∧ get_input_json_dict "\x7b\x7d" = Except.ok (Json.obj [])
    ∧ get_input_json_dict "not json" = Except.error (decodeErr "Expecting value")
    ∧ get_input_json_dict s = Except.error e := by
  refine ⟨rfl, rfl, rfl, ?_⟩
  simp [get_input_json_dict, h1, h2]

/-- Witness for C2 at the concrete non-JSON string `not json`. -/
theorem get_input_json_dict_spec_witness :
    get_input_json_dict "" = Except.ok (Json.obj [])
    ∧ get_input_json_dict "\x7b\x7d" = Except.ok (Json.obj [])
    ∧ get_input_json_dict "not json" = Except.error (decodeErr "Expecting value")
    ∧ get_input_json_dict "not json" = Except.error (decodeErr "Expecting value") :=
  get_input_json_dict_spec "not json" (decodeErr "Expecting value") (by decide) rfl

/-- C4: `push_data` serialization is UTF-8 passthrough: every character at
or above U+0020 other than the double quote and the backslash is emitted
verbatim (never as a `\uXXXX` escape); concretely, the payload mapping
`a ↦ café` serializes to the JSON text `{"a": "café"}` with the `é`
unescaped, and decoding that text yields back exactly the same mapping. -/
theorem push_data_utf8_roundtrip (c : Char) (h1 : 32 ≤ c.toNat)
    (h2 : c ≠ '"') (h3 : c ≠ '\\') :
    escapeChar c = String.singleton c
    ∧ push_data (Json.obj [("a", Json.str "café")])
        = Event.pushData ("\x7b\"a\": \"café\"\x7d")
    ∧ loads (dumps (Json.obj [("a", Json.str "café")]))
        = Except.ok (Json.obj [("a", Json.str "café")]) := by
  refine ⟨?_, rfl, rfl⟩
  have hn : c ≠ '\n' := by intro h; subst h; exact absurd h1 (by decide)
  have hr : c ≠ '\r' := by intro h; subst h; exact absurd h1 (by decide)
  have ht : c ≠ '\t' := by intro h; subst h; exact absurd h1 (by decide)
  have h8 : ¬ c.toNat = 8 := by omega
  have h12 : ¬ c.toNat = 12 := by omega
  have h32 : ¬ c.toNat < 32 := by omega
  simp [escapeChar, h2, h3, hn, hr, ht, h8, h12, h32]

/-- Witness for C4 at the concrete non-ASCII character `é`. -/
theorem push_data_utf8_roundtrip_witness :
    escapeChar 'é' = String.singleton 'é'
    ∧ push_data (Json.obj [("a", Json.str "café")])
        = Event.pushData ("\x7b\"a\": \"café\"\x7d")
    ∧ loads (dumps (Json.obj [("a", Json.str "café")]))
        = Except.ok (Json.obj [("a", Json.str "café")]) :=
  push_data_utf8_roundtrip 'é' (by decide) (by decide) (by decide)

/-- C6: `set_table_header` transmits the full header list in a single
remote call preserving the given order, and (host side modelled from the
spec) each call replaces the previously understood header set, so the
receiver observes exactly the transmitted order whatever its prior state. -/
theorem set_table_header_order_preserved (prev headers : List TableHeader) :
    (set_table_header headers).headers = headers
    ∧ set_table_header_calls headers = [set_table_header headers]
    ∧ host_apply_table_header prev (set_table_header headers) = headers :=
  ⟨rfl, rfl, rfl⟩

/-- Shape of the driver trace on any failing execution: whatever events
preceded the failure contain no `PushData` and no `SetTableHeader` call (and,
when the environment lookup succeeded, no error log), and the trace ends
with the top-level handler's error log and failure-payload push. -/
theorem run_error_trace (envRes : Except PyErr (Option String))
    (inputRes : Except PyErr String) (e : PyErr)
    (h : (run envRes inputRes).2 = Except.error e) :
    ∃ pre, (run envRes inputRes).1 = pre ++ handlerEvents e
      ∧ pre.filter isPush = []
      ∧ pre.filter isSetHeader = []
      ∧ (∀ a, envRes = Except.ok a → pre.filter isErrorLog = []) := by
  cases inputRes with
  | error e1 =>
    have he : e1 = e := by simpa [run] using h
    subst he
    exact ⟨[], by simp [run], rfl, rfl, fun a _ => rfl⟩
  | ok s =>
    cases hg : get_input_json_dict s with
    | error e1 =>
      have he : e1 = e := by simpa [run, hg] using h
      subst he
      exact ⟨[], by simp [run, hg], rfl, rfl, fun a _ => rfl⟩
    | ok j =>
      cases hd : pyDictGet j "url" with
      | ok u => exact absurd h (by simp [run, hg, hd])
      | error e1 =>
        have he : e1 = e := by simpa [run, hg, hd] using h
        subst he
        cases envRes with
        | ok a =>
          refine ⟨[Event.log .debug ("params: " ++ pyRepr j),
                   Event.log .info ("Proxy authentication information: " ++ optStr a),
                   Event.log .info ("Proxy address: " ++ optStr (build_proxy_url a))],
                  ?_, rfl, rfl, fun _ _ => rfl⟩
          simp [run, hg, hd, envEvents]
        | error e2 =>
          refine ⟨[Event.log .debug ("params: " ++ pyRepr j),
                   Event.log .error
                     ("Failed to retrieve proxy authentication information: " ++ e2.msg),
                   Event.log .info ("Proxy address: " ++ optStr (build_proxy_url none))],
                  ?_, rfl, rfl, fun a ha => by cases ha⟩
          simp [run, hg, hd, envEvents]

/-- C3: whenever an exception `e` propagates out of the driver (it is
re-raised after the single top-level catch, so the process terminates
abnormally), the trace contains exactly one `PushData` call, carrying the
serialized failure payload `error = str(e)`, `error_code = 500`,
`status = failed`; the trace ends with the handler's error log followed by
that push; and when the environment lookup succeeded the trace contains
exactly one error-severity log line. -/
theorem run_failure_policy (envRes : Except PyErr (Option String))
    (inputRes : Except PyErr String) (e : PyErr)
    (h : (run envRes inputRes).2 = Except.error e) :
    (run envRes inputRes).1.filter isPush = [push_data (failurePayload e)]
    ∧ (∃ pre, (run envRes inputRes).1
        = pre ++ [Event.log .error ("Script execution error: " ++ e.msg),
                  push_data (failurePayload e)])
    ∧ (∀ a, envRes = Except.ok a →
        ((run envRes inputRes).1.filter isErrorLog).length = 1) := by
  obtain ⟨pre, htr, hp, hs, herr⟩ := run_error_trace envRes inputRes e h
  refine ⟨?_, ⟨pre, by rw [htr]; rfl⟩, ?_⟩
  · rw [htr, List.filter_append, hp]; rfl
  · intro a ha
    rw [htr, List.filter_append, herr a ha]
    rfl

/-- Witness for C3 on the concrete failing input `not json` with a
successful environment lookup. -/
theorem run_failure_policy_witness :
    (run (Except.ok none) (Except.ok "not json")).1.filter isPush
      = [push_data (failurePayload (decodeErr "Expecting value"))] :=
  (run_failure_policy (Except.ok none) (Except.ok "not json")
    (decodeErr "Expecting value") rfl).1

/-- C8: on every execution in which a failure propagates out of the driver
(which can only originate in steps 1-6, since nothing after the header push
can fail), no `SetTableHeader` call appears in the trace: headers are
published only after the success payload was pushed. -/
theorem no_header_after_failure (envRes : Except PyErr (Option String))
    (inputRes : Except PyErr String) (e : PyErr)
    (h : (run envRes inputRes).2 = Except.error e) :
    (run envRes inputRes).1.filter isSetHeader = [] := by
  obtain ⟨pre, htr, _, hs, _⟩ := run_error_trace envRes inputRes e h
  rw [htr, List.filter_append, hs]
  rfl

/-- Witness for C8 on a concrete failing execution: the input-fetch remote
call itself fails. -/
theorem no_header_after_failure_witness :
    (run (Except.ok none)
        (Except.error { name := "RpcError", msg := "status = UNAVAILABLE" })).1.filter
        isSetHeader = [] :=
  no_header_after_failure (Except.ok none)
    (Except.error { name := "RpcError", msg := "status = UNAVAILABLE" })
    { name := "RpcError", msg := "status = UNAVAILABLE" } rfl

/-- C5: on the success path, for an input mapping `url ↦ http://example.com`
(however the environment lookup went), the driver pushes exactly one
payload — `url ↦ http://example.com`, `status ↦ success`, `data ↦ ‹sample›`
— followed by exactly one `SetTableHeader` call, and returns normally. -/
theorem run_success_scenario (envRes : Except PyErr (Option String)) (s : String)
    (h : loads s = Except.ok (Json.obj [("url", Json.str "http://example.com")])) :
    (run envRes (Except.ok s)).1.filter (fun ev => isPush ev || isSetHeader ev)
      = [push_data (Json.obj [("url", Json.str "http://example.com"),
                              ("status", Json.str "success"),
                              ("data", sampleData)]),
         Event.setTableHeader headersLit]
    ∧ (run envRes (Except.ok s)).2 = Except.ok () := by
  have hs : s ≠ "" := by
    intro hs0
    rw [hs0] at h
    rw [show loads "" = Except.error (decodeErr "Expecting value") from rfl] at h
    simp at h
  have hg : get_input_json_dict s
      = Except.ok (Json.obj [("url", Json.str "http://example.com")]) := by
    simp [get_input_json_dict, hs, h]
  refine ⟨?_, ?_⟩ <;> cases envRes <;>
    simp [run, hg, pyDictGet, dictLookup, envEvents, successResult, sampleData,
      set_table_header, push_data, isPush, isSetHeader, List.filter_append, List.filter]

/-- Witness for C5 at the concrete input string holding the mapping
`url ↦ http://example.com`. -/
theorem run_success_scenario_witness :
    (run (Except.ok (some "user:pass"))
        (Except.ok "\x7b\"url\": \"http://example.com\"\x7d")).1.filter
        (fun ev => isPush ev || isSetHeader ev)
      = [push_data (Json.obj [("url", Json.str "http://example.com"),
                              ("status", Json.str "success"),
                              ("data", sampleData)]),
         Event.setTableHeader headersLit] :=
  (run_success_scenario (Except.ok (some "user:pass"))
    "\x7b\"url\": \"http://example.com\"\x7d" rfl).1

/-- C7: when the environment lookup for the proxy credential fails with any
exception `e`, the driver catches it locally, logs it at error level, logs
the proxy URL as `None` (it continues with no credential), and otherwise
behaves exactly like a run whose lookup returned no credential: same
outcome and same pushes — the task is not aborted by the lookup failure. -/
theorem env_failure_degrades (e : PyErr) (s : String) (j : Json)
    (h : get_input_json_dict s = Except.ok j) :
    (run (Except.error e) (Except.ok s)).2 = (run (Except.ok none) (Except.ok s)).2
    ∧ (run (Except.error e) (Except.ok s)).1.filter isPush
        = (run (Except.ok none) (Except.ok s)).1.filter isPush
    ∧ Event.log .error ("Failed to retrieve proxy authentication information: " ++ e.msg)
        ∈ (run (Except.error e) (Except.ok s)).1
    ∧ Event.log .info ("Proxy address: " ++ optStr (build_proxy_url none))
        ∈ (run (Except.error e) (Except.ok s)).1 := by
  cases hd : pyDictGet j "url" with
  | error e1 =>
    refine ⟨?_, ?_, ?_, ?_⟩ <;>
      simp [run, h, hd, envEvents, handlerEvents, isPush,
        List.filter_append, List.filter]
  | ok u =>
    refine ⟨?_, ?_, ?_, ?_⟩ <;>
      simp [run, h, hd, envEvents, isPush, List.filter_append, List.filter]

/-- Witness for C7 at a concrete lookup failure over the empty input. -/
theorem env_failure_degrades_witness :
    (run (Except.error { name := "KeyError", msg := "environment unavailable" })
        (Except.ok "")).2
      = (run (Except.ok none) (Except.ok "")).2 :=
  (env_failure_degrades { name := "KeyError", msg := "environment unavailable" }
    "" (Json.obj []) rfl).1

/-- C10: when the input mapping has no `url` key, the driver does not fail:
`dict.get` yields `None`, and the single pushed payload carries a null
`url` field with `status` still `success`; the run returns normally. -/
theorem missing_url_key_success (envRes : Except PyErr (Option String)) (s : String)
    (kvs : List (String × Json))
    (h1 : get_input_json_dict s = Except.ok (Json.obj kvs))
    (h2 : dictLookup kvs "url" = none) :
    (run envRes (Except.ok s)).1.filter isPush
      = [push_data (Json.obj [("url", Json.null),
                              ("status", Json.str "success"),
                              ("data", sampleData)])]
    ∧ (run envRes (Except.ok s)).2 = Except.ok () := by
  have hd : pyDictGet (Json.obj kvs) "url" = Except.ok none := by
    simp [pyDictGet, h2]
  refine ⟨?_, ?_⟩ <;> cases envRes <;>
    simp [run, h1, hd, envEvents, successResult, push_data, isPush,
      Option.getD, List.filter_append, List.filter]

/-- Witness for C10 at the concrete empty input mapping. -/
theorem missing_url_key_success_witness :
    (run (Except.ok (some "user:pass")) (Except.ok "")).1.filter isPush
      = [push_data (Json.obj [("url", Json.null),
                              ("status", Json.str "success"),
                              ("data", sampleData)])] :=
  (missing_url_key_success (Except.ok (some "user:pass")) "" [] rfl rfl).1
